import Mathlib

/-!
Verification development for `git-profiles-cli` (src/src/main.rs), a CLI tool
that stores Git identity profiles (name, email, alias) in a local SQLite table
and switches the global Git identity by shelling out to `git config`.

Shallow embedding:
  * the SQLite table `profiles(id, email UNIQUE NOT NULL, name NOT NULL,
    alias UNIQUE)` is a `List GitProfile` in insertion (rowid) order;
  * the SQL row filter `alias LIKE '%'||f||'%' OR email = e` is embedded by
    `likeMatch` (SQLite's default LIKE semantics: ASCII-case-insensitive,
    `%` matches any sequence, `_` matches any single character, no ESCAPE)
    together with exact string equality on the email column;
  * each spawn of the external `git` binary is an oracle value `SpawnResult`:
    either the spawn itself failed (`Command::output()` returned `Err`, the
    tool is missing) or it completed with an exit code and a stdout whose
    UTF-8 decoding is `some s` (decodable to `s`) or `none` (invalid UTF-8).
    Note that in Rust a *completed* command with non-zero exit code is still
    `Ok` from `output()`; the program never inspects `status`;
  * observable behaviour is a trace of `Event`s (completed `git config`
    invocations and `println!` lines) plus an `Except String` result where
    `Except.error msg` embeds a panic (`expect`/`unwrap`), which aborts the
    process with diagnostic `msg` and a non-zero exit code, and
    `Except.ok` embeds normal return (process exit code 0).
-/

namespace GitProfilesCli

/-- The `GitProfile` struct of main.rs (the surrogate `id` column is never
read back by the program and is omitted). -/
structure GitProfile where
  name : String
  email : String
  «alias» : String
deriving DecidableEq

/-- ASCII lower-casing, as used by SQLite's default LIKE comparison
(only the ASCII range is case-folded). -/
def asciiLower (c : Char) : Char :=
  if 'A' ≤ c ∧ c ≤ 'Z' then Char.ofNat (c.toNat + 32) else c

/-- SQLite default `LIKE` pattern matching (`string LIKE pattern`, no ESCAPE):
`%` matches any sequence of zero or more characters, `_` matches exactly one
character, any other pattern character matches ASCII-case-insensitively.
`likeMatch pat s` is true iff the string `s` matches the pattern `pat`. -/
def likeMatch : List Char → List Char → Bool
  | [], s => s.isEmpty
  | '%' :: ps, s => (List.tails s).any (fun t => likeMatch ps t)
  | '_' :: ps, s =>
    match s with
    | [] => false
    | _ :: s' => likeMatch ps s'
  | p :: ps, s =>
    match s with
    | [] => false
    | c :: s' => (asciiLower p == asciiLower c) && likeMatch ps s'

/-- The LIKE pattern built at main.rs:97: `"%".to_owned() + &alias_str + "%"`. -/
def likePattern (f : String) : List Char :=
  '%' :: (f.toList ++ ['%'])

/-- The WHERE clause of the switch query (main.rs:88):
`alias like :alias or email = :email`, with `:alias` = `%` ++ filter ++ `%`
and both filters defaulted to `""` by `unwrap_or_default()`
(main.rs:92, main.rs:98). -/
def rowMatches (aliasF emailF : Option String) (p : GitProfile) : Bool :=
  likeMatch (likePattern (aliasF.getD "")) p.«alias».toList
    || p.email == emailF.getD ""

/-- The lookup performed by `set_profile_from_db` (main.rs:86-107):
`select alias, email, name from profiles where alias like :alias or
email = :email limit 1` — the first row, in storage (insertion) order,
satisfying the WHERE clause, if any.  The spec calls this `find_one`. -/
def find_one (db : List GitProfile) (aliasF emailF : Option String) :
    Option GitProfile :=
  db.find? (rowMatches aliasF emailF)

/-- Does `needle` occur at the start of the second list?  (Plain
character-by-character equality; helper for `isSubstring`.) -/
def startsWithChars : List Char → List Char → Bool
  | [], _ => true
  | _ :: _, [] => false
  | c :: cs, d :: ds => (c == d) && startsWithChars cs ds

/-- Plain (case-sensitive, wildcard-free) substring test: does `needle`
occur contiguously inside `hay`?  This is the matching policy the spec
*claims* for the alias filter. -/
def isSubstring (needle : List Char) : List Char → Bool
  | [] => needle.isEmpty
  | c :: hs => startsWithChars needle (c :: hs) || isSubstring needle hs

/-- Specification-side lookup, written from the claim's words (C1): alias
filter matches iff it occurs in the row's alias *as a plain substring*
(empty or absent filter matching every alias), email filter matches by
exact equality.  To be compared with `find_one` above. -/
def find_one_spec (db : List GitProfile) (aliasF emailF : Option String) :
    Option GitProfile :=
  db.find? (fun p =>
    isSubstring (aliasF.getD "").toList p.«alias».toList
      || p.email == emailF.getD "")

/-- Outcome of one `Command::new("git")...output()` call.
`err` is `Err` from `output()` (the spawn itself failed, e.g. tool missing);
`ok exitCode stdout` is a completed process, where `stdout = some s` means the
captured stdout bytes decode (via `String::from_utf8`) to `s`, and
`stdout = none` means they are not valid UTF-8.  Rust's `output()` returns
`Ok` even when the exit code is non-zero. -/
inductive SpawnResult where
  | err : SpawnResult
  | ok (exitCode : Nat) (stdout : Option String) : SpawnResult
deriving DecidableEq

/-- Observable events of one program run: completed invocations of the
external tool, and lines printed by `println!`.  A `gitConfigSet k v` or
`gitConfigGetEmail` event is recorded exactly when the corresponding spawn
completed (a failed spawn runs no process and leaves no event). -/
inductive Event where
  | gitConfigGetEmail : Event
  | gitConfigSet (key : String) (value : String) : Event
  | println (line : String) : Event
deriving DecidableEq

/-- Rust's `str::trim`: the string with leading and trailing whitespace
removed (for the ASCII output of `git config` the Unicode `White_Space`
property coincides with `Char.isWhitespace`). -/
def trimString (s : String) : String :=
  ⟨((s.toList.dropWhile Char.isWhitespace).reverse.dropWhile
      Char.isWhitespace).reverse⟩

/-- `get_current_profile` (main.rs:149-159): runs
`git config --global --get user.email`, panicking (`expect`) if the spawn
fails, panicking (`unwrap`) if stdout is not UTF-8, and otherwise returning
the trimmed stdout. -/
def get_current_profile (r : SpawnResult) :
    List Event × Except String String :=
  match r with
  | .err => ([], .error "Error getting the email")
  | .ok _ stdout =>
    match stdout with
    | none => ([.gitConfigGetEmail], .error "called `Result::unwrap()` on an `Err` value")
    | some s => ([.gitConfigGetEmail], .ok (trimString s))

/-- `change_profile` (main.rs:126-147): runs
`git config --global user.email <email>` then
`git config --global user.name <name>`, panicking (`expect`) if either spawn
fails; the exit codes and outputs of completed invocations are never
inspected.  On reaching the end it prints the confirmation line.
`r1`, `r2` are the outcomes of the two spawns, in program order. -/
def change_profile (r1 r2 : SpawnResult) (profile : GitProfile) :
    List Event × Except String Unit :=
  match r1 with
  | .err => ([], .error "Error setting the email")
  | .ok _ _ =>
    match r2 with
    | .err => ([.gitConfigSet "user.email" profile.email],
               .error "Error setting the name")
    | .ok _ _ =>
      ([.gitConfigSet "user.email" profile.email,
        .gitConfigSet "user.name" profile.name,
        .println ("Successfully changed profile to " ++ profile.«alias»
                    ++ " (" ++ profile.email ++ ")")],
       .ok ())

/-- `set_profile_from_db` (main.rs:85-113): runs the `find_one` query
(`limit 1`) and iterates over the at-most-one resulting row, calling
`change_profile` on it; with no matching row the loop body never runs. -/
def set_profile_from_db (r1 r2 : SpawnResult) (db : List GitProfile)
    (aliasF emailF : Option String) : List Event × Except String Unit :=
  match find_one db aliasF emailF with
  | none => ([], .ok ())
  | some p => change_profile r1 r2 p

/-- The INSERT's constraint check: the SQLite row constraints
`email UNIQUE` and `alias UNIQUE` reject the new row iff some existing row
has the same email or the same alias (TEXT values compare with the default
BINARY collation, i.e. exact string equality; the empty string is an
ordinary value, not NULL). -/
def insertCollides (db : List GitProfile) («alias» email : String) : Bool :=
  db.any (fun p => p.email == email || p.«alias» == «alias»)

/-- `add_profile` (main.rs:115-124): `INSERT INTO profiles (email, name,
alias) VALUES (?1, ?2, ?3)`, panicking (`expect`) on a constraint violation
— in which case the row is not inserted and the table is unchanged — and
otherwise appending the new row and printing a confirmation.
Returns (table after the call, events, result). -/
def add_profile (db : List GitProfile) (name «alias» email : String) :
    List GitProfile × List Event × Except String Unit :=
  if insertCollides db «alias» email then
    (db, [], .error "Error adding new profile to DB.")
  else
    (db ++ [{ name := name, email := email, «alias» := «alias» }],
     [.println "Successfully added new profile!"],
     .ok ())

/-- One rendered table row of `list_profiles` (main.rs:186-205): the row
whose email equals the current email is emphasised (bold+italic in the
original; the exact visual styling of comfy_table is abstracted to a
marker). -/
def renderRow (currentEmail : String) (p : GitProfile) : String :=
  if p.email == currentEmail then
    "[*] " ++ p.«alias» ++ " | " ++ p.name ++ " | " ++ p.email
  else
    p.«alias» ++ " | " ++ p.name ++ " | " ++ p.email

/-- The table printed by `list_profiles`, one row per profile in storage
order (comfy_table borders and colors abstracted away; no claim depends on
the rendered text). -/
def renderTable (db : List GitProfile) (currentEmail : String) : String :=
  String.intercalate "\n" (db.map (renderRow currentEmail))

/-- `list_profiles` (main.rs:161-210): queries all rows (in storage order),
reads the current email via `get_current_profile` (a second gateway read —
`main` already performed one), and prints the rendered table.
`r` is the outcome of this function's own `git config --get` spawn. -/
def list_profiles (r : SpawnResult) (db : List GitProfile) :
    List Event × Except String Unit :=
  match get_current_profile r with
  | (ev, .error msg) => (ev, .error msg)
  | (ev, .ok currentEmail) =>
    (ev ++ [.println (renderTable db currentEmail)], .ok ())

/-- The parsed CLI subcommand (the `Commands` enum, main.rs:22-48).
For `add`, clap marks all three flags required, so they are plain
`String`s; for `switch` both flags are optional. -/
inductive Commands where
  | list : Commands
  | add (name email «alias» : String) : Commands
  | switch («alias» email : Option String) : Commands
deriving DecidableEq

/-- `main` (main.rs:50-83): opens the database (schema creation is
idempotent and modelled by starting from the given table), calls
`get_current_profile()` discarding its result (main.rs:66), then dispatches
on the subcommand.  `r0` is the startup read's spawn outcome; `r1`, `r2`
are the outcomes of the spawns the dispatched operation may perform
(`list` uses `r1` for its own read; `switch` uses `r1`, `r2` for the two
writes; `add` spawns nothing).  Returns (table after the run, event trace,
result), where `Except.error` is a panic (non-zero process exit) and
`Except.ok ()` is a normal exit with code 0. -/
def runMain (r0 r1 r2 : SpawnResult) (db : List GitProfile)
    (cmd : Commands) : List GitProfile × List Event × Except String Unit :=
  match get_current_profile r0 with
  | (ev0, .error msg) => (db, ev0, .error msg)
  | (ev0, .ok _) =>
    match cmd with
    | .list =>
      match list_profiles r1 db with
      | (ev, res) => (db, ev0 ++ ev, res)
    | .add name email «alias» =>
      match add_profile db name «alias» email with
      | (db', ev, res) => (db', ev0 ++ ev, res)
    | .switch aliasF emailF =>
      match set_profile_from_db r1 r2 db aliasF emailF with
      | (ev, res) => (db, ev0 ++ ev, res)

/-- A whole sequence of program invocations, each with its own spawn
oracles, threading the stored table through (the external tool's state and
the printed output of each run are not needed for the store invariant). -/
def runSession (db : List GitProfile) :
    List (SpawnResult × SpawnResult × SpawnResult × Commands) →
    List GitProfile
  | [] => db
  | (r0, r1, r2, cmd) :: rest =>
    runSession (runMain r0 r1 r2 db cmd).1 rest

/-- The external tool's global identity configuration (spec §3
`ActiveIdentity`): the two keys `user.name` and `user.email`. -/
structure GitState where
  userName : String
  userEmail : String
deriving DecidableEq

/-- Effect of one completed invocation on the external tool's global
configuration (spec §6: `config --global <key> <value>` writes the key;
reads and prints change nothing). -/
def applyEvent (s : GitState) (e : Event) : GitState :=
  match e with
  | .gitConfigSet key value =>
    if key == "user.email" then { s with userEmail := value }
    else if key == "user.name" then { s with userName := value }
    else s
  | _ => s

/-- Effect of a whole event trace on the external configuration. -/
def applyEvents (s : GitState) (evs : List Event) : GitState :=
  evs.foldl applyEvent s

/-- Number of `println!` lines in a trace. -/
def printlnCount : List Event → Nat
  | [] => 0
  | .println _ :: evs => printlnCount evs + 1
  | _ :: evs => printlnCount evs

/-- Number of completed `git config --get user.email` reads in a trace. -/
def readCount : List Event → Nat
  | [] => 0
  | .gitConfigGetEmail :: evs => readCount evs + 1
  | _ :: evs => readCount evs

/-- Number of completed `git config` writes in a trace. -/
def writeCount : List Event → Nat
  | [] => 0
  | .gitConfigSet _ _ :: evs => writeCount evs + 1
  | _ :: evs => writeCount evs

/-- The store invariant of spec §3: no two rows share an email, and no two
rows share a non-empty alias. -/
def StoreInvariant (db : List GitProfile) : Prop :=
  db.Pairwise (fun p q =>
    p.email ≠ q.email ∧ (p.«alias» = q.«alias» → p.«alias» = ""))

/-! Helper lemmas. -/

/-- A single `%` pattern matches every string. -/
theorem likeMatch_percent (s : List Char) : likeMatch ['%'] s = true := by
  have h : ([] : List Char) ∈ s.tails := (List.mem_tails _ _).2 List.nil_suffix
  simp only [likeMatch]
  exact List.any_eq_true.2 ⟨[], h, rfl⟩

/-- The pattern built from the empty alias filter, `%%`, matches every
string: an empty (or absent) alias filter matches every alias. -/
theorem likeMatch_likePattern_empty (s : List Char) :
    likeMatch (likePattern "") s = true := by
  show likeMatch ['%', '%'] s = true
  simp only [likeMatch]
  exact List.any_eq_true.2
    ⟨s, (List.mem_tails _ _).2 (List.suffix_refl s), likeMatch_percent s⟩

/-- With both filters empty, every row satisfies the WHERE clause. -/
theorem rowMatches_empty_filters (aF eF : Option String)
    (h : aF.getD "" = "") (p : GitProfile) : rowMatches aF eF p = true := by
  rw [rowMatches, h]
  exact Bool.or_eq_true_iff.2 (Or.inl (likeMatch_likePattern_empty _))

/-- A row whose email or alias equals the new row's makes the INSERT
constraint check fire. -/
theorem insertCollides_of_mem (db : List GitProfile) (p : GitProfile)
    («alias» email : String) (hp : p ∈ db)
    (h : p.email = email ∨ p.«alias» = «alias») :
    insertCollides db «alias» email = true := by
  refine List.any_eq_true.2 ⟨p, hp, ?_⟩
  rcases h with h | h
  · exact Bool.or_eq_true_iff.2 (Or.inl (beq_iff_eq.2 h))
  · exact Bool.or_eq_true_iff.2 (Or.inr (beq_iff_eq.2 h))

/-- Appending a row that collides with nothing preserves the store
invariant. -/
theorem StoreInvariant_append (db : List GitProfile) (x : GitProfile)
    (hinv : StoreInvariant db)
    (hno : insertCollides db x.«alias» x.email = false) :
    StoreInvariant (db ++ [x]) := by
  rw [StoreInvariant, List.pairwise_append]
  refine ⟨hinv, List.pairwise_singleton _ _, ?_⟩
  intro a ha b hb
  rw [List.mem_singleton] at hb
  rw [hb]
  have hne : ¬((a.email == x.email || a.«alias» == x.«alias») = true) := by
    intro hcontra
    have : insertCollides db x.«alias» x.email = true :=
      List.any_eq_true.2 ⟨a, ha, hcontra⟩
    rw [hno] at this
    exact Bool.false_ne_true this
  rw [Bool.or_eq_true_iff] at hne
  push_neg at hne
  refine ⟨fun h => hne.1 (beq_iff_eq.2 h), fun h => absurd (beq_iff_eq.2 h) hne.2⟩

/-- The first store component of a run: unchanged, except possibly by the
`add` branch. -/
theorem runMain_fst_cases (r0 r1 r2 : SpawnResult) (db : List GitProfile)
    (cmd : Commands) :
    (runMain r0 r1 r2 db cmd).1 = db ∨
    ∃ n e a, (runMain r0 r1 r2 db cmd).1 = (add_profile db n a e).1 := by
  cases r0 with
  | err => exact Or.inl rfl
  | ok c o =>
    cases o with
    | none => exact Or.inl rfl
    | some s =>
      cases cmd with
      | list => exact Or.inl rfl
      | add n e a => exact Or.inr ⟨n, e, a, rfl⟩
      | switch aF eF => exact Or.inl rfl

/-- `add_profile` preserves the store invariant (it refuses colliding
rows). -/
theorem add_profile_fst_invariant (db : List GitProfile) (n a e : String)
    (h : StoreInvariant db) : StoreInvariant (add_profile db n a e).1 := by
  by_cases hc : insertCollides db a e = true
  · simpa [add_profile, hc] using h
  · rw [Bool.not_eq_true] at hc
    have : (add_profile db n a e).1 =
        db ++ [{ name := n, email := e, «alias» := a }] := by
      simp [add_profile, hc]
    rw [this]
    exact StoreInvariant_append db _ h hc

/-- One program run preserves the store invariant. -/
theorem runMain_preserves_invariant (r0 r1 r2 : SpawnResult)
    (db : List GitProfile) (cmd : Commands) (h : StoreInvariant db) :
    StoreInvariant (runMain r0 r1 r2 db cmd).1 := by
  rcases runMain_fst_cases r0 r1 r2 db cmd with heq | ⟨n, e, a, heq⟩
  · rw [heq]; exact h
  · rw [heq]; exact add_profile_fst_invariant db n a e h

/-- A whole session preserves the store invariant. -/
theorem runSession_preserves_invariant
    (ops : List (SpawnResult × SpawnResult × SpawnResult × Commands)) :
    ∀ db : List GitProfile, StoreInvariant db →
      StoreInvariant (runSession db ops) := by
  induction ops with
  | nil => intro db h; exact h
  | cons op rest ih =>
    intro db h
    rcases op with ⟨r0, r1, r2, cmd⟩
    exact ih _ (runMain_preserves_invariant r0 r1 r2 db cmd h)

/-- No completed `git config --get` read appears among `change_profile`'s
events. -/
theorem change_profile_no_reads (r1 r2 : SpawnResult) (p : GitProfile) :
    readCount (change_profile r1 r2 p).1 = 0 := by
  cases r1 with
  | err => rfl
  | ok c o =>
    cases r2 with
    | err => rfl
    | ok c' o' => rfl

/-! Claim theorems. -/

/-- C1 counterexample: with the single stored row (name `n`, email `e`,
alias `x`), alias filter `_` and email filter `zzz`, the claimed policy —
plain substring on the alias OR exact equality on the email — matches no
row (`_` is not a substring of `x`, and `e ≠ zzz`), so by the claim the
lookup must return none; but the code's `find_one` returns the row, because
SQL LIKE treats `_` in the filter as a single-character wildcard
(`'x' LIKE '%_%'` holds). -/
theorem C1_counterexample :
    find_one [{ name := "n", email := "e", «alias» := "x" }]
        (some "_") (some "zzz")
      = some { name := "n", email := "e", «alias» := "x" } ∧
    find_one_spec [{ name := "n", email := "e", «alias» := "x" }]
        (some "_") (some "zzz") = none ∧
    isSubstring "_".toList "x".toList = false ∧
    ("e" : String) ≠ "zzz" := by
  exact ⟨by decide, by decide, by decide, by decide⟩

/-- C1 (amended): the switch lookup returns at most one profile — the first
row in storage order satisfying the SQL WHERE clause, namely: the row's
alias matches `%filter%` under SQLite LIKE semantics (ASCII case
insensitive, with `%` and `_` in the filter acting as wildcards; an empty
or absent alias filter matches every alias) OR the row's email is exactly
equal to the email filter (absent defaulting to the empty string); it
returns none when no row satisfies either condition. -/
theorem C1_find_one_first_match (db : List GitProfile)
    (aF eF : Option String) :
    (∀ p, find_one db aF eF = some p ↔
        rowMatches aF eF p = true ∧
        ∃ l₁ l₂, db = l₁ ++ p :: l₂ ∧
          ∀ q ∈ l₁, rowMatches aF eF q = false) ∧
    (find_one db aF eF = none ↔ ∀ p ∈ db, rowMatches aF eF p = false) ∧
    (∀ s : List Char, likeMatch (likePattern "") s = true) := by
  refine ⟨?_, ?_, likeMatch_likePattern_empty⟩
  · intro p
    rw [find_one, List.find?_eq_some]
    constructor
    · rintro ⟨hm, l₁, l₂, hdb, hprev⟩
      exact ⟨hm, l₁, l₂, hdb, fun q hq => by
        have := hprev q hq
        rwa [Bool.not_eq_true'] at this⟩
    · rintro ⟨hm, l₁, l₂, hdb, hprev⟩
      exact ⟨hm, l₁, l₂, hdb, fun q hq => by
        rw [Bool.not_eq_true']
        exact hprev q hq⟩
  · rw [find_one, List.find?_eq_none]
    constructor
    · intro h p hp
      have := h p hp
      rwa [Bool.not_eq_true] at this
    · intro h p hp
      rw [Bool.not_eq_true]
      exact h p hp

/-- C2 counterexample: both `git config` writes complete with exit code 1
(non-zero) and undecodable output — failing invocations in the claim's
sense — yet `change_profile` neither aborts nor propagates an error: it
returns success and prints the merged success confirmation, because the
program never inspects the exit status or output of a completed command. -/
theorem C2_counterexample :
    change_profile (.ok 1 none) (.ok 1 none)
        { name := "Bob", email := "bob@x.com", «alias» := "home" } =
      ([.gitConfigSet "user.email" "bob@x.com",
        .gitConfigSet "user.name" "Bob",
        .println "Successfully changed profile to home (bob@x.com)"],
       .ok ()) := rfl

/-- C2 (amended): the two external-tool writes abort the process only on
spawn failure: if spawning either command fails (tool missing), the caller
receives the panic with the corresponding diagnostic, no success
confirmation is printed, and when the first spawn fails the second command
is not attempted; but the exit status and output of a completed command are
ignored, so whenever both commands complete — even with non-zero exit
codes — the merged success confirmation is reported. -/
theorem C2_change_profile_spawn_failure (p : GitProfile) (r2 : SpawnResult)
    (c1 c2 : Nat) (o1 o2 : Option String) :
    change_profile .err r2 p = ([], .error "Error setting the email") ∧
    change_profile (.ok c1 o1) .err p =
      ([.gitConfigSet "user.email" p.email],
       .error "Error setting the name") ∧
    printlnCount (change_profile .err r2 p).1 = 0 ∧
    printlnCount (change_profile (.ok c1 o1) .err p).1 = 0 ∧
    change_profile (.ok c1 o1) (.ok c2 o2) p =
      ([.gitConfigSet "user.email" p.email,
        .gitConfigSet "user.name" p.name,
        .println ("Successfully changed profile to " ++ p.«alias»
                    ++ " (" ++ p.email ++ ")")],
       .ok ()) := by
  exact ⟨rfl, rfl, rfl, rfl, rfl⟩

/-- C3: when the switch lookup finds a profile `p` (and every spawn
completes), the run sets `user.email` to `p.email` and then `user.name` to
`p.name`, in that order, prints exactly one line — the confirmation naming
`p`'s alias and email — and exits normally; applied to any prior external
identity, the trace overwrites both fields. -/
theorem C3_switch_sets_identity (c0 c1 c2 : Nat) (s0 : String)
    (o1 o2 : Option String) (db : List GitProfile) (aF eF : Option String)
    (p : GitProfile) (hfind : find_one db aF eF = some p) :
    runMain (.ok c0 (some s0)) (.ok c1 o1) (.ok c2 o2) db (.switch aF eF) =
      (db,
       [.gitConfigGetEmail,
        .gitConfigSet "user.email" p.email,
        .gitConfigSet "user.name" p.name,
        .println ("Successfully changed profile to " ++ p.«alias»
                    ++ " (" ++ p.email ++ ")")],
       .ok ()) ∧
    printlnCount
      (runMain (.ok c0 (some s0)) (.ok c1 o1) (.ok c2 o2) db
        (.switch aF eF)).2.1 = 1 ∧
    ∀ g : GitState,
      applyEvents g
        (runMain (.ok c0 (some s0)) (.ok c1 o1) (.ok c2 o2) db
          (.switch aF eF)).2.1 =
      { userName := p.name, userEmail := p.email } := by
  have h : runMain (.ok c0 (some s0)) (.ok c1 o1) (.ok c2 o2) db
      (.switch aF eF) =
      (db, Event.gitConfigGetEmail ::
        (set_profile_from_db (.ok c1 o1) (.ok c2 o2) db aF eF).1,
       (set_profile_from_db (.ok c1 o1) (.ok c2 o2) db aF eF).2) := rfl
  have hs : set_profile_from_db (.ok c1 o1) (.ok c2 o2) db aF eF =
      ([.gitConfigSet "user.email" p.email,
        .gitConfigSet "user.name" p.name,
        .println ("Successfully changed profile to " ++ p.«alias»
                    ++ " (" ++ p.email ++ ")")],
       .ok ()) := by
    rw [set_profile_from_db, hfind]
    rfl
  rw [h, hs]

  exact ⟨rfl, rfl, fun g => rfl⟩

/-- C3 witness: with Alice and Bob stored, `switch --alias home` finds Bob
and the run's full observable behaviour is as C3 states. -/
theorem C3_switch_sets_identity_witness :
    runMain (.ok 0 (some "")) (.ok 0 (some "")) (.ok 0 (some ""))
        [{ name := "Alice", email := "alice@x.com", «alias» := "work" },
         { name := "Bob", email := "bob@x.com", «alias» := "home" }]
        (.switch (some "home") none) =
      ([{ name := "Alice", email := "alice@x.com", «alias» := "work" },
        { name := "Bob", email := "bob@x.com", «alias» := "home" }],
       [.gitConfigGetEmail,
        .gitConfigSet "user.email" "bob@x.com",
        .gitConfigSet "user.name" "Bob",
        .println "Successfully changed profile to home (bob@x.com)"],
       .ok ()) :=
  (C3_switch_sets_identity 0 0 0 "" (some "") (some "")
    [{ name := "Alice", email := "alice@x.com", «alias» := "work" },
     { name := "Bob", email := "bob@x.com", «alias» := "home" }]
    (some "home") none
    { name := "Bob", email := "bob@x.com", «alias» := "home" }
    (by decide)).1

/-- A colliding `add` run: the startup read completes, the INSERT panics
with the constraint-violation diagnostic, and the table keeps exactly the
rows it had. -/
theorem runMain_add_collision (c0 : Nat) (s0 : String) (r1 r2 : SpawnResult)
    (db : List GitProfile) (n e a : String)
    (hc : insertCollides db a e = true) :
    runMain (.ok c0 (some s0)) r1 r2 db (.add n e a) =
      (db, [Event.gitConfigGetEmail],
       .error "Error adding new profile to DB.") ∧
    add_profile db n a e =
      (db, [], .error "Error adding new profile to DB.") := by
  have hadd : add_profile db n a e =
      (db, [], .error "Error adding new profile to DB.") := by
    simp [add_profile, hc]
  have hrun : runMain (.ok c0 (some s0)) r1 r2 db (.add n e a) =
      ((add_profile db n a e).1,
       Event.gitConfigGetEmail :: (add_profile db n a e).2.1,
       (add_profile db n a e).2.2) := rfl
  refine ⟨?_, hadd⟩
  rw [hrun, hadd]

/-- C4: if some stored profile already has email `e` — or already has the
non-empty alias `a` — then an `add` with that email (resp. alias) fails:
the constraint violation aborts the run with a user-visible diagnostic
(non-zero exit), and the stored set of profiles is unchanged (same rows,
same count). -/
theorem C4_duplicate_add_fails (c0 : Nat) (s0 : String)
    (r1 r2 : SpawnResult) (db : List GitProfile) (p : GitProfile)
    (n a e : String) (hp : p ∈ db)
    (hcol : p.email = e ∨ (p.«alias» = a ∧ a ≠ "")) :
    runMain (.ok c0 (some s0)) r1 r2 db (.add n e a) =
      (db, [Event.gitConfigGetEmail],
       .error "Error adding new profile to DB.") ∧
    add_profile db n a e =
      (db, [], .error "Error adding new profile to DB.") := by
  have hc : insertCollides db a e = true :=
    insertCollides_of_mem db p a e hp (hcol.imp id And.left)
  exact runMain_add_collision c0 s0 r1 r2 db n e a hc

/-- C4 witness: with Alice stored, adding Eve with Alice's email fails and
leaves the single-row table unchanged. -/
theorem C4_duplicate_add_fails_witness :
    runMain (.ok 0 (some "")) .err .err
        [{ name := "Alice", email := "alice@x.com", «alias» := "work" }]
        (.add "Eve" "alice@x.com" "personal") =
      ([{ name := "Alice", email := "alice@x.com", «alias» := "work" }],
       [Event.gitConfigGetEmail],
       .error "Error adding new profile to DB.") :=
  (C4_duplicate_add_fails 0 "" .err .err
    [{ name := "Alice", email := "alice@x.com", «alias» := "work" }]
    { name := "Alice", email := "alice@x.com", «alias» := "work" }
    "Eve" "personal" "alice@x.com" (by decide) (Or.inl rfl)).1

/-- C5: starting from the empty store, after any sequence of `list`, `add`
and `switch` invocations (with arbitrary spawn outcomes) the stored set
satisfies the invariant — no two profiles share an email and no two share
a non-empty alias; moreover `switch` and `list` never modify the store. -/
theorem C5_store_invariant
    (ops : List (SpawnResult × SpawnResult × SpawnResult × Commands)) :
    StoreInvariant (runSession [] ops) ∧
    (∀ (r0 r1 r2 : SpawnResult) (db : List GitProfile)
        (aF eF : Option String),
      (runMain r0 r1 r2 db (.switch aF eF)).1 = db) ∧
    (∀ (r0 r1 r2 : SpawnResult) (db : List GitProfile),
      (runMain r0 r1 r2 db .list).1 = db) := by
  refine ⟨runSession_preserves_invariant ops [] List.Pairwise.nil, ?_, ?_⟩
  · intro r0 r1 r2 db aF eF
    cases r0 with
    | err => rfl
    | ok c o =>
      cases o with
      | none => rfl
      | some s => rfl
  · intro r0 r1 r2 db
    cases r0 with
    | err => rfl
    | ok c o =>
      cases o with
      | none => rfl
      | some s => rfl

/-- C6 counterexample: when the spawn of the read itself fails, the gateway
read does not return the empty string as the claim states — it panics with
the diagnostic, aborting the process. -/
theorem C6_counterexample :
    get_current_profile .err = ([], .error "Error getting the email") ∧
    (get_current_profile .err).2 ≠ .ok "" :=
  ⟨rfl, fun h => Except.noConfusion h⟩

/-- C6 (amended): when the read invocation completes with UTF-8-decodable
stdout `s`, the gateway read returns `s` with surrounding whitespace
trimmed — in particular the empty string when the tool prints nothing
(value unset, or the lookup exiting non-zero with empty output); but when
the spawn itself fails, or the output is unreadable (not valid UTF-8), the
process aborts with a diagnostic instead of returning a value. -/
theorem C6_get_current_email (c : Nat) (s : String) :
    get_current_profile (.ok c (some s)) =
      ([Event.gitConfigGetEmail], .ok (trimString s)) ∧
    get_current_profile (.ok c (some "")) =
      ([Event.gitConfigGetEmail], .ok "") ∧
    get_current_profile .err = ([], .error "Error getting the email") ∧
    get_current_profile (.ok c none) =
      ([Event.gitConfigGetEmail],
       .error "called `Result::unwrap()` on an `Err` value") := by
  have h0 : trimString "" = "" := by decide
  refine ⟨rfl, ?_, rfl, rfl⟩
  show ([Event.gitConfigGetEmail], Except.ok (trimString ""))
      = ([Event.gitConfigGetEmail], Except.ok "")
  rw [h0]

/-- C7: on a non-empty store, the lookup with both filters absent or empty
returns the first-inserted profile: the empty alias filter becomes the LIKE
pattern `%%`, which matches every alias, so the first row in storage order
matches. -/
theorem C7_find_one_empty_filters (p : GitProfile)
    (rest : List GitProfile) :
    find_one (p :: rest) (some "") (some "") = some p ∧
    find_one (p :: rest) none none = some p ∧
    find_one (p :: rest) (some "") none = some p ∧
    find_one (p :: rest) none (some "") = some p := by
  exact
    ⟨List.find?_cons_of_pos _ (rowMatches_empty_filters (some "") (some "") rfl p),
     List.find?_cons_of_pos _ (rowMatches_empty_filters none none rfl p),
     List.find?_cons_of_pos _ (rowMatches_empty_filters (some "") none rfl p),
     List.find?_cons_of_pos _ (rowMatches_empty_filters none (some "") rfl p)⟩

/-- C8: a switch whose lookup finds no matching profile performs no gateway
write (the external identity is unchanged by the run's trace), prints
nothing, leaves the store unchanged, and exits 0. -/
theorem C8_switch_no_match (c0 : Nat) (s0 : String) (r1 r2 : SpawnResult)
    (db : List GitProfile) (aF eF : Option String)
    (hfind : find_one db aF eF = none) :
    runMain (.ok c0 (some s0)) r1 r2 db (.switch aF eF) =
      (db, [Event.gitConfigGetEmail], .ok ()) ∧
    writeCount [Event.gitConfigGetEmail] = 0 ∧
    printlnCount [Event.gitConfigGetEmail] = 0 ∧
    ∀ g : GitState, applyEvents g [Event.gitConfigGetEmail] = g := by
  have h : runMain (.ok c0 (some s0)) r1 r2 db (.switch aF eF) =
      (db, Event.gitConfigGetEmail ::
        (set_profile_from_db r1 r2 db aF eF).1,
       (set_profile_from_db r1 r2 db aF eF).2) := rfl
  have hs : set_profile_from_db r1 r2 db aF eF = ([], .ok ()) := by
    rw [set_profile_from_db, hfind]
  exact ⟨by rw [h, hs], rfl, rfl, fun g => rfl⟩

/-- C8 witness: with Alice and Bob stored, `switch --alias nonexistent`
completes with exit 0, an unchanged store, and a trace containing only the
startup read — no write, no output, identity unchanged. -/
theorem C8_switch_no_match_witness :
    runMain (.ok 0 (some "")) .err .err
        [{ name := "Alice", email := "alice@x.com", «alias» := "work" },
         { name := "Bob", email := "bob@x.com", «alias» := "home" }]
        (.switch (some "nonexistent") none) =
      ([{ name := "Alice", email := "alice@x.com", «alias» := "work" },
        { name := "Bob", email := "bob@x.com", «alias» := "home" }],
       [Event.gitConfigGetEmail], .ok ()) :=
  (C8_switch_no_match 0 "" .err .err
    [{ name := "Alice", email := "alice@x.com", «alias» := "work" },
     { name := "Bob", email := "bob@x.com", «alias» := "home" }]
    (some "nonexistent") none (by decide)).1

/-- C9: every run begins with the startup gateway read: if its spawn fails,
every command — `list`, `add` and `switch` alike — aborts with the read's
diagnostic; when it completes, its value is discarded (two runs differing
only in that value coincide entirely) and the trace starts with the read
event; a `list` run performs two completed reads while `add` and `switch`
perform exactly one. -/
theorem C9_startup_read (db : List GitProfile) (cmd : Commands)
    (r1 r2 : SpawnResult) (c0 c0' c1 : Nat) (s0 s0' s1 : String)
    (n e a : String) (aF eF : Option String) :
    runMain .err r1 r2 db cmd = (db, [], .error "Error getting the email") ∧
    runMain (.ok c0 (some s0)) r1 r2 db cmd
      = runMain (.ok c0' (some s0')) r1 r2 db cmd ∧
    (∃ evs, (runMain (.ok c0 (some s0)) r1 r2 db cmd).2.1
      = Event.gitConfigGetEmail :: evs) ∧
    readCount
      (runMain (.ok c0 (some s0)) (.ok c1 (some s1)) r2 db .list).2.1 = 2 ∧
    readCount
      (runMain (.ok c0 (some s0)) r1 r2 db (.add n e a)).2.1 = 1 ∧
    readCount
      (runMain (.ok c0 (some s0)) r1 r2 db (.switch aF eF)).2.1 = 1 := by
  refine ⟨rfl, rfl, ?_, rfl, ?_, ?_⟩
  · cases cmd with
    | list => exact ⟨_, rfl⟩
    | add n' e' a' => exact ⟨_, rfl⟩
    | switch aF' eF' => exact ⟨_, rfl⟩
  · show readCount (Event.gitConfigGetEmail :: (add_profile db n a e).2.1) = 1
    have h : readCount (add_profile db n a e).2.1 = 0 := by
      by_cases hc : insertCollides db a e = true
      · simp [add_profile, hc, readCount]
      · simp [add_profile, hc, readCount]
    show readCount (add_profile db n a e).2.1 + 1 = 1
    rw [h]
  · show readCount
        (Event.gitConfigGetEmail :: (set_profile_from_db r1 r2 db aF eF).1)
        = 1
    have h : readCount (set_profile_from_db r1 r2 db aF eF).1 = 0 := by
      rw [set_profile_from_db]
      split
      · rfl
      · exact change_profile_no_reads r1 r2 _
    show readCount (set_profile_from_db r1 r2 db aF eF).1 + 1 = 1
    rw [h]

/-- C10: the `add` subcommand's alias is a plain (required) argument — the
`Commands.add` constructor carries a `String`, not an `Option String` — and
the empty string participates in the alias UNIQUE constraint like any other
value: with a profile whose alias is `""` already stored, a second add with
alias `""` hits the constraint, aborts with the diagnostic, and leaves the
store unchanged. -/
theorem C10_empty_alias_unique (c0 : Nat) (s0 : String)
    (r1 r2 : SpawnResult) (db : List GitProfile) (p : GitProfile)
    (n e : String) (hp : p ∈ db) (ha : p.«alias» = "") :
    runMain (.ok c0 (some s0)) r1 r2 db (.add n e "") =
      (db, [Event.gitConfigGetEmail],
       .error "Error adding new profile to DB.") ∧
    add_profile db n "" e =
      (db, [], .error "Error adding new profile to DB.") := by
  have hc : insertCollides db "" e = true :=
    insertCollides_of_mem db p "" e hp (Or.inr ha)
  exact runMain_add_collision c0 s0 r1 r2 db n e "" hc

/-- C10 witness: with one profile stored under the empty alias, a second
add with the empty alias fails and the store keeps its single row. -/
theorem C10_empty_alias_unique_witness :
    runMain (.ok 0 (some "")) .err .err
        [{ name := "A", email := "a@x.com", «alias» := "" }]
        (.add "B" "b@x.com" "") =
      ([{ name := "A", email := "a@x.com", «alias» := "" }],
       [Event.gitConfigGetEmail],
       .error "Error adding new profile to DB.") :=
  (C10_empty_alias_unique 0 "" .err .err
    [{ name := "A", email := "a@x.com", «alias» := "" }]
    { name := "A", email := "a@x.com", «alias» := "" }
    "B" "b@x.com" (by decide) rfl).1

end GitProfilesCli
